import Mathlib

/-!
Verification of the OIDC authorization-code-flow handlers of `actix-toolbox`
(`src/oidc/handler.rs`, `src/oidc/config.rs`, `src/oidc/mod.rs`).

The two handlers `login` and `finish_login` are embedded as pure functions.
External collaborators (the session store, the identity provider's token
endpoint, the JOSE verification routines of the `openidconnect` crate) are
modelled explicitly:

* the session is an association list from string keys to stored values;
* the outcomes of the external calls made by the handlers (token exchange,
  claims verification, signing-algorithm extraction, access-token-hash
  computation, session serialization success) are supplied as oracle data in
  an environment record, so the handlers' own control flow — the part that
  lives in this repository — is carried over exactly;
* each run records the external identity-provider calls it actually performs
  in a trace, so "the exchange was never invoked" is a statement about the
  trace.
-/

namespace ActixToolbox

/-- The keys under which the OIDC module stores its data in the user's
session (`SessionKeys` in `src/oidc/config.rs`). -/
structure SessionKeys where
  request : String
  data : String
deriving DecidableEq, Repr

/-- The `Default` impl of `SessionKeys` in `src/oidc/config.rs`. -/
def SessionKeys.default : SessionKeys :=
  { request := "oidc_request", data := "oidc_data" }

/-- The per-attempt secret bundle `AuthState` in `src/oidc/handler.rs`:
CSRF token, PKCE code verifier and nonce, all opaque strings. -/
structure AuthState where
  csrf_token : String
  pkce_code_verifier : String
  nonce : String
deriving DecidableEq, Repr

/-- The decoded ID-token claims, restricted to the parts `finish_login`
inspects: the subject and the optional access-token-hash claim. -/
structure IdTokenClaims where
  sub : String
  access_token_hash : Option String
deriving DecidableEq, Repr

instance {ε α : Type} [DecidableEq ε] [DecidableEq α] : DecidableEq (Except ε α) := fun x y =>
  match x, y with
  | .ok a, .ok b =>
      if h : a = b then .isTrue (by rw [h])
      else .isFalse (by intro hh; cases hh; exact h rfl)
  | .ok _, .error _ => .isFalse (by intro hh; cases hh)
  | .error _, .ok _ => .isFalse (by intro hh; cases hh)
  | .error a, .error b =>
      if h : a = b then .isTrue (by rw [h])
      else .isFalse (by intro hh; cases hh; exact h rfl)

/-- An ID token, seen through the two `openidconnect` operations
`finish_login` applies to it: `claims(verifier, nonce)` (signature and
claims verification, yielding the claims or a verification error) and
`signing_alg()` (the header's algorithm, or a signing error when it is
unsupported). Both are external library calls, so their outcomes are data. -/
structure IdToken where
  claimsResult : Except String IdTokenClaims
  signingAlg : Except String String
deriving DecidableEq, Repr

/-- The provider's token response (`CoreTokenResponse`): the access token
and the optional ID token. -/
structure CoreTokenResponse where
  access_token : String
  id_token : Option IdToken
deriving DecidableEq, Repr

/-- `UserData` from `src/oidc/mod.rs`: the validated identity assertion
`finish_login` stores in the session — the token response plus the verified
claims. -/
structure UserData where
  token : CoreTokenResponse
  claims : IdTokenClaims
deriving DecidableEq, Repr

/-- A value stored in the session. `authState` and `userData` are the two
shapes this module serializes; `raw` stands for any other serialized value
(which fails to deserialize as `AuthState`, just as a serde decode of a
value with the wrong fields fails). -/
inductive SessVal where
  | authState (s : AuthState)
  | userData (u : UserData)
  | raw (s : String)
deriving DecidableEq, Repr

/-- Whether a stored value decodes as an `AuthState`. -/
def SessVal.isAuthState : SessVal → Bool
  | .authState _ => true
  | _ => false

/-- The session collaborator's state: an association list from keys to
stored values (first binding wins, as in a map). -/
abbrev Session := List (String × SessVal)

/-- Look up a key (`Session::get`). -/
def Session.get : Session → String → Option SessVal
  | [], _ => none
  | (k, v) :: rest, key => if k = key then some v else Session.get rest key

/-- Remove every binding of a key. -/
def Session.removeKey : Session → String → Session
  | [], _ => []
  | (k, v) :: rest, key =>
      if k = key then Session.removeKey rest key
      else (k, v) :: Session.removeKey rest key

/-- Insert a value for a key, replacing any prior binding
(`Session::insert` overwrites). -/
def Session.insert (sess : Session) (key : String) (v : SessVal) : Session :=
  (key, v) :: Session.removeKey sess key

/-- `Session::remove_as::<AuthState>` from `actix-session`: remove the
binding and attempt to decode it; `none` when the key is absent (session
untouched), `some (.error _)` when the stored value does not decode as an
`AuthState` (the binding is still removed), `some (.ok st)` on success. -/
def Session.remove_as (sess : Session) (key : String) :
    Option (Except String AuthState) × Session :=
  match Session.get sess key with
  | none => (none, sess)
  | some (.authState st) => (some (.ok st), Session.removeKey sess key)
  | some (.userData _) => (some (.error "undecodable"), Session.removeKey sess key)
  | some (.raw s) => (some (.error s), Session.removeKey sess key)

/-- The error enum `FinishLoginError` of `src/oidc/handler.rs`. The payloads
of the wrapping variants (`CoreRequestTokenError`, `ClaimsVerificationError`,
`SigningError`, `SessionInsertError`) are opaque library errors, carried as
strings. -/
inductive FinishLoginError where
  | MissingState
  | InvalidState
  | FailedRequestToken (err : String)
  | MissingIdToken
  | InvalidIdToken (err : String)
  | CreateAccessTokenHash (err : String)
  | InvalidAccessTokenHash
  | SessionInsert (err : String)
deriving DecidableEq, Repr

/-- The `Display` impl for `FinishLoginError` in `src/oidc/handler.rs`,
message for message. -/
def FinishLoginError.display : FinishLoginError → String
  | .MissingState => "State is missing from user session"
  | .InvalidState => "State in user session is invalid"
  | .FailedRequestToken err => "Failed to request token: " ++ err
  | .MissingIdToken => "Provider didn\x27t respond with an ID token"
  | .InvalidIdToken err => "The ID token didn\x27t pass the verification: " ++ err
  | .CreateAccessTokenHash err => "Couldn\x27t generate the access token\x27s hash: " ++ err
  | .InvalidAccessTokenHash => "The access token\x27s hash doesn\x27t match"
  | .SessionInsert err => "Failed to set token in user session: " ++ err

/-- An HTTP response as far as these handlers shape one: status code,
optional `Location` header, body. -/
structure HttpResponse where
  status : Nat
  location : Option String
  body : String
deriving DecidableEq, Repr

/-- `impl ResponseError for FinishLoginError {}` in `src/oidc/handler.rs` is
empty, so actix-web's default `ResponseError::status_code` applies: it
returns 500 Internal Server Error for every variant. -/
def FinishLoginError.status_code (_ : FinishLoginError) : Nat := 500

/-- actix-web's default `ResponseError::error_response` (used unchanged by
the empty impl in `src/oidc/handler.rs`): a response with the variant's
`status_code` and the variant's `Display` text as the plain-text body. -/
def FinishLoginError.error_response (e : FinishLoginError) : HttpResponse :=
  { status := e.status_code, location := none, body := e.display }

/-- The `Client` of `src/oidc/config.rs`, restricted to the fields the
handlers read for control flow: the post-authentication redirect target and
the session keys. (The wrapped `CoreClient` and the scope set only shape the
outgoing authorization and token requests, whose outcomes are oracle data.) -/
structure Client where
  post_auth_url : String
  session_keys : SessionKeys
deriving DecidableEq, Repr

/-- The query parameters `AuthRequest` of the `finish_login` endpoint:
the authorization code and the echoed CSRF `state`. -/
structure AuthRequest where
  code : String
  state : String
deriving DecidableEq, Repr

/-- A redirect instruction as `login` returns one
(`Redirect::to(url).temporary()`). -/
structure Redirect where
  url : String
  temporary : Bool
deriving DecidableEq, Repr

/-- Oracle data for one `login` run: the fresh secrets produced by
`PkceCodeChallenge::new_random_sha256`, `CsrfToken::new_random` and
`Nonce::new_random`, the authorization URL built from them, and whether the
session write succeeds. -/
structure LoginEnv where
  csrf_token : String
  pkce_code_verifier : String
  nonce : String
  auth_url : String
  insertOk : Bool
deriving DecidableEq, Repr

/-- The `login` handler of `src/oidc/handler.rs`: build the authorization
request, store `AuthState { csrf_token, pkce_code_verifier, nonce }` in the
session under the `request` key, and return a temporary redirect to the
authorization URL; a failing session write propagates `SessionInsertError`
via `?` and the redirect is never built. Returns the handler's result
together with the session state after the call. -/
def login (client : Client) (env : LoginEnv) (sess : Session) :
    Except String Redirect × Session :=
  let st : AuthState :=
    { csrf_token := env.csrf_token
      pkce_code_verifier := env.pkce_code_verifier
      nonce := env.nonce }
  if env.insertOk then
    (.ok { url := env.auth_url, temporary := true },
     Session.insert sess client.session_keys.request (.authState st))
  else
    (.error "SessionInsertError", sess)

/-- The identity-provider calls `finish_login` performs, in order. -/
inductive CallEvent where
  | exchangeCode (code : String) (pkce_verifier : String)
  | verifyClaims (nonce : String)
deriving DecidableEq, Repr

/-- Oracle data for one `finish_login` run: the outcome of the token
exchange (`request_async` on the code-exchange request), the library's
access-token-hash computation `AccessTokenHash::from_token` as a function of
access token and signing algorithm, and whether the final session write
succeeds. -/
structure FinishEnv where
  exchangeResult : Except String CoreTokenResponse
  hashFn : String → String → Except String String
  dataInsertOk : Bool

/-- Result of a `finish_login` run: the handler's `Result`, the session
state after the call, and the trace of identity-provider calls made. -/
structure FinishOutcome where
  result : Except FinishLoginError HttpResponse
  session : Session
  calls : List CallEvent
deriving DecidableEq, Repr

/-- The tail of `finish_login`: store `UserData { claims, token }` under the
`data` key, then answer `302 Found` with `Location` set to `post_auth_url`;
a failing write becomes `FinishLoginError::SessionInsert`. -/
def storeUserData (client : Client) (env : FinishEnv) (sess : Session)
    (calls : List CallEvent) (token : CoreTokenResponse) (claims : IdTokenClaims) :
    FinishOutcome :=
  if env.dataInsertOk then
    { result := .ok { status := 302, location := some client.post_auth_url, body := "" }
      session := Session.insert sess client.session_keys.data
        (.userData { token := token, claims := claims })
      calls := calls }
  else
    { result := .error (.SessionInsert "SessionInsertError"), session := sess, calls := calls }

/-- The `finish_login` handler of `src/oidc/handler.rs`, step for step:
1. read-and-remove `AuthState` from the session's `request` key
   (`MissingState` when absent or undecodable);
2. compare the callback `state` with the stored CSRF token (`InvalidState`);
3. exchange the code together with the stored PKCE verifier
   (`FailedRequestToken`);
4. require an ID token in the response (`MissingIdToken`);
5. verify the ID token's signature and claims against the stored nonce
   (`InvalidIdToken`);
6. when the claims carry an access-token-hash, recompute the hash of the
   returned access token with the ID token's signing algorithm
   (`CreateAccessTokenHash` when the algorithm or the hash computation
   fails, `InvalidAccessTokenHash` on mismatch); absence of the claim skips
   the step;
7. store the `UserData` and redirect (via `storeUserData`). -/
def finish_login (client : Client) (params : AuthRequest) (env : FinishEnv)
    (sess : Session) : FinishOutcome :=
  match Session.remove_as sess client.session_keys.request with
  | (none, s₁) => { result := .error .MissingState, session := s₁, calls := [] }
  | (some (.error _), s₁) => { result := .error .MissingState, session := s₁, calls := [] }
  | (some (.ok st), s₁) =>
    if params.state ≠ st.csrf_token then
      { result := .error .InvalidState, session := s₁, calls := [] }
    else
      let calls := [CallEvent.exchangeCode params.code st.pkce_code_verifier]
      match env.exchangeResult with
      | .error e => { result := .error (.FailedRequestToken e), session := s₁, calls := calls }
      | .ok token =>
        match token.id_token with
        | none => { result := .error .MissingIdToken, session := s₁, calls := calls }
        | some idt =>
          let calls := calls ++ [CallEvent.verifyClaims st.nonce]
          match idt.claimsResult with
          | .error e => { result := .error (.InvalidIdToken e), session := s₁, calls := calls }
          | .ok claims =>
            match claims.access_token_hash with
            | none => storeUserData client env s₁ calls token claims
            | some expected =>
              match idt.signingAlg with
              | .error e =>
                  { result := .error (.CreateAccessTokenHash e), session := s₁, calls := calls }
              | .ok alg =>
                match env.hashFn token.access_token alg with
                | .error e =>
                    { result := .error (.CreateAccessTokenHash e), session := s₁, calls := calls }
                | .ok actual =>
                  if actual ≠ expected then
                    { result := .error .InvalidAccessTokenHash, session := s₁, calls := calls }
                  else storeUserData client env s₁ calls token claims

/-- The guard of step 6 as a predicate: the access-token-hash verification
succeeds (or is skipped because the claim is absent). -/
def hashStepOk (env : FinishEnv) (token : CoreTokenResponse) (idt : IdToken)
    (claims : IdTokenClaims) : Bool :=
  match claims.access_token_hash with
  | none => true
  | some expected =>
    match idt.signingAlg with
    | .error _ => false
    | .ok alg =>
      match env.hashFn token.access_token alg with
      | .error _ => false
      | .ok actual => actual = expected

/-! Concrete fixtures used by the witness theorems. -/

/-- A client with the default session keys. -/
def wClient : Client :=
  { post_auth_url := "https://app/home", session_keys := SessionKeys.default }

/-- A fixed fresh-secret bundle for a `login` run. -/
def wLoginEnv : LoginEnv :=
  { csrf_token := "csrf-1", pkce_code_verifier := "pkce-1", nonce := "nonce-1"
    auth_url := "https://idp/auth", insertOk := true }

/-- A stored identity assertion, as it would sit under the `data` key. -/
def wUserData : UserData :=
  { token := { access_token := "at-0", id_token := none }
    claims := { sub := "user-42", access_token_hash := none } }

/-- A session already holding authenticated user data. -/
def wSessData : Session := [("oidc_data", .userData wUserData)]

/-- A second fresh-secret bundle, for a repeated `login`. -/
def wLoginEnv2 : LoginEnv :=
  { csrf_token := "csrf-2", pkce_code_verifier := "pkce-2", nonce := "nonce-2"
    auth_url := "https://idp/auth2", insertOk := true }

/-- The stored per-attempt state matching `wLoginEnv`. -/
def wAuthState : AuthState :=
  { csrf_token := "csrf-1", pkce_code_verifier := "pkce-1", nonce := "nonce-1" }

/-- A session holding exactly the stored attempt state. -/
def wSessReq : Session := [("oidc_request", .authState wAuthState)]

/-- A stub provider environment whose exchange and hash calls all fail, for
runs that must never reach them. -/
def wFinishEnvStub : FinishEnv :=
  { exchangeResult := .error "stub", hashFn := fun _ _ => .error "stub", dataInsertOk := true }

/-- An ID token whose claims carry an access-token-hash. -/
def wIdTokenHash : IdToken :=
  { claimsResult := .ok { sub := "user-42", access_token_hash := some "expected-hash" }
    signingAlg := .ok "RS256" }

/-- A token response carrying `wIdTokenHash`. -/
def wTokenHash : CoreTokenResponse :=
  { access_token := "at-1", id_token := some wIdTokenHash }

/-- An environment whose exchange succeeds with `wTokenHash` and whose hash
computation returns a value different from the expected claim. -/
def wFinishEnvMismatch : FinishEnv :=
  { exchangeResult := .ok wTokenHash
    hashFn := fun _ _ => .ok "actual-hash"
    dataInsertOk := true }

/-- Claims without an access-token-hash. -/
def wClaimsOk : IdTokenClaims := { sub := "user-42", access_token_hash := none }

/-- A verifiable ID token whose claims carry no access-token-hash. -/
def wIdTokenOk : IdToken := { claimsResult := .ok wClaimsOk, signingAlg := .ok "RS256" }

/-- A token response carrying `wIdTokenOk`. -/
def wTokenOk : CoreTokenResponse := { access_token := "at-1", id_token := some wIdTokenOk }

/-- An environment for a fully successful `finish_login` run. -/
def wFinishEnvOk : FinishEnv :=
  { exchangeResult := .ok wTokenOk
    hashFn := fun _ _ => .error "unused"
    dataInsertOk := true }

/-! ## Library lemmas about the session store -/

theorem Session.get_removeKey_self (sess : Session) (key : String) :
    Session.get (Session.removeKey sess key) key = none := by
  induction sess with
  | nil => rfl
  | cons p rest ih =>
      obtain ⟨k, v⟩ := p
      by_cases h : k = key
      · simp [Session.removeKey, h, ih]
      · simp [Session.removeKey, Session.get, h, ih]

theorem Session.get_removeKey_ne (sess : Session) (key k : String) (h : k ≠ key) :
    Session.get (Session.removeKey sess key) k = Session.get sess k := by
  induction sess with
  | nil => rfl
  | cons p rest ih =>
      obtain ⟨k', v⟩ := p
      by_cases hk : k' = key
      · subst hk
        simp [Session.removeKey, Session.get, Ne.symm h, ih]
      · simp [Session.removeKey, Session.get, hk, ih]

theorem Session.get_insert_self (sess : Session) (key : String) (v : SessVal) :
    Session.get (Session.insert sess key v) key = some v := by
  simp [Session.insert, Session.get]

theorem Session.get_insert_ne (sess : Session) (key k : String) (v : SessVal) (h : k ≠ key) :
    Session.get (Session.insert sess key v) k = Session.get sess k := by
  simp [Session.insert, Session.get, Ne.symm h, Session.get_removeKey_ne sess key k h]

theorem Session.remove_as_none (sess : Session) (key : String)
    (h : (Session.remove_as sess key).1 = none) :
    (Session.remove_as sess key).2 = sess := by
  unfold Session.remove_as at *
  cases hg : Session.get sess key with
  | none => simp [hg]
  | some v => cases v <;> simp [hg] at h

theorem Session.remove_as_of_get_authState (sess : Session) (key : String) (st : AuthState)
    (h : Session.get sess key = some (.authState st)) :
    Session.remove_as sess key = (some (.ok st), Session.removeKey sess key) := by
  unfold Session.remove_as
  rw [h]

theorem Session.remove_as_ok_session (sess : Session) (key : String) (st : AuthState)
    (s₁ : Session) (h : Session.remove_as sess key = (some (.ok st), s₁)) :
    s₁ = Session.removeKey sess key := by
  unfold Session.remove_as at h
  cases hg : Session.get sess key with
  | none => rw [hg] at h; simp at h
  | some v =>
      cases v with
      | authState st' =>
          rw [hg] at h
          simp only [Prod.mk.injEq] at h
          exact h.2.symm
      | userData u => rw [hg] at h; simp at h
      | raw s => rw [hg] at h; simp at h

theorem Session.remove_as_none_session (sess : Session) (key : String) (s₁ : Session)
    (h : Session.remove_as sess key = (none, s₁)) : s₁ = sess := by
  unfold Session.remove_as at h
  cases hg : Session.get sess key with
  | none =>
      rw [hg] at h
      simp only [Prod.mk.injEq] at h
      exact h.2.symm
  | some v => cases v <;> rw [hg] at h <;> simp at h

theorem Session.remove_as_error_session (sess : Session) (key : String) (e : String)
    (s₁ : Session) (h : Session.remove_as sess key = (some (.error e), s₁)) :
    s₁ = Session.removeKey sess key := by
  unfold Session.remove_as at h
  cases hg : Session.get sess key with
  | none => rw [hg] at h; simp at h
  | some v =>
      cases v <;> rw [hg] at h <;> simp only [Prod.mk.injEq] at h <;>
        exact h.2.symm

/-- Removing one key preserves the absence of a given value at any key. -/
theorem Session.get_removeKey_preserves_ne (sess : Session) (key dk : String) (v : SessVal)
    (hfresh : Session.get sess dk ≠ some v) :
    Session.get (Session.removeKey sess key) dk ≠ some v := by
  by_cases h : dk = key
  · subst h
    rw [Session.get_removeKey_self]
    simp
  · rw [Session.get_removeKey_ne _ _ _ h]
    exact hfresh

/-- Once step 1 has yielded a decoded `AuthState`, `finish_login` ends with
the consumed session `s₁` or with a single `UserData` insert into it. -/
theorem finish_login_session_cases (client : Client) (params : AuthRequest)
    (env : FinishEnv) (sess : Session) (st : AuthState) (s₁ : Session)
    (hrem : Session.remove_as sess client.session_keys.request = (some (.ok st), s₁)) :
    (finish_login client params env sess).session = s₁ ∨
    ∃ u, (finish_login client params env sess).session
        = Session.insert s₁ client.session_keys.data (.userData u) := by
  unfold finish_login storeUserData
  rw [hrem]
  dsimp only
  repeat' split
  all_goals first
    | (left; rfl)
    | (right; exact ⟨_, rfl⟩)

/-- Once step 1 has yielded a decoded `AuthState`, no later step produces
`MissingState`. -/
theorem finish_login_ok_branch_ne_missing (client : Client) (params : AuthRequest)
    (env : FinishEnv) (sess : Session) (st : AuthState) (s₁ : Session)
    (hrem : Session.remove_as sess client.session_keys.request = (some (.ok st), s₁)) :
    (finish_login client params env sess).result ≠ .error .MissingState := by
  unfold finish_login storeUserData
  rw [hrem]
  dsimp only
  repeat' split
  all_goals simp

/-! ## Claims about `login` -/

/-- Claim C7: a successful `login` persists the fresh CSRF token, PKCE
verifier and nonce together as one `AuthState` under the configured
`request` key and returns the temporary redirect to the authorization URL;
when the session write fails, the error is propagated and no redirect
instruction is produced (the handler's result is the error and the session
is unchanged). -/
theorem login_persists_state_and_redirects
    (client : Client) (env : LoginEnv) (sess : Session) :
    (env.insertOk = true →
      (login client env sess).1 = .ok { url := env.auth_url, temporary := true } ∧
      Session.get (login client env sess).2 client.session_keys.request
        = some (.authState
            { csrf_token := env.csrf_token
              pkce_code_verifier := env.pkce_code_verifier
              nonce := env.nonce })) ∧
    (env.insertOk = false →
      (login client env sess).1 = .error "SessionInsertError" ∧
      (login client env sess).2 = sess) := by
  constructor
  · intro h
    simp [login, h, Session.get_insert_self]
  · intro h
    simp [login, h]

/-- Witness for C7: a concrete successful `login` run stores the bundle and
redirects. -/
theorem login_persists_state_and_redirects_witness :
    (login wClient wLoginEnv []).1 = .ok { url := "https://idp/auth", temporary := true } ∧
    Session.get (login wClient wLoginEnv []).2 wClient.session_keys.request
      = some (.authState
          { csrf_token := "csrf-1", pkce_code_verifier := "pkce-1", nonce := "nonce-1" }) :=
  (login_persists_state_and_redirects wClient wLoginEnv []).1 rfl

/-- Claim C10: `login` writes only the configured `request` key: the value
stored under every other key — in particular any authenticated `UserData`
under the `data` key — is exactly what it was before the call. -/
theorem login_touches_only_request_key
    (client : Client) (env : LoginEnv) (sess : Session) (k : String)
    (hk : k ≠ client.session_keys.request) :
    Session.get (login client env sess).2 k = Session.get sess k := by
  by_cases h : env.insertOk
  · simp [login, h, Session.get_insert_ne _ _ _ _ hk]
  · simp [login, h]

/-- Witness for C10: a `login` on a session already holding `UserData` under
the default `data` key leaves that entry untouched. -/
theorem login_touches_only_request_key_witness :
    ("oidc_data" : String) ≠ wClient.session_keys.request ∧
    Session.get (login wClient wLoginEnv wSessData).2 "oidc_data"
      = Session.get wSessData "oidc_data" :=
  ⟨by decide, login_touches_only_request_key wClient wLoginEnv wSessData "oidc_data" (by decide)⟩

/-! ## Claims about `finish_login` -/

/-- Claim C2: when the callback's `state` differs from the CSRF token of the
stored attempt state, `finish_login` fails with `InvalidState` and the
token-exchange call is never made (the call trace is empty). -/
theorem finish_login_state_mismatch_no_exchange
    (client : Client) (params : AuthRequest) (env : FinishEnv) (sess : Session)
    (st : AuthState) (s₁ : Session)
    (hrem : Session.remove_as sess client.session_keys.request = (some (.ok st), s₁))
    (hne : params.state ≠ st.csrf_token) :
    (finish_login client params env sess).result = .error .InvalidState ∧
    (finish_login client params env sess).calls = [] := by
  unfold finish_login
  rw [hrem]
  simp [hne]

/-- Witness for C2: a callback carrying `state="wrong"` against a stored
CSRF token `"csrf-1"` fails `InvalidState` and performs no provider call. -/
theorem finish_login_state_mismatch_no_exchange_witness :
    Session.remove_as wSessReq wClient.session_keys.request = (some (.ok wAuthState), []) ∧
    ("wrong" : String) ≠ wAuthState.csrf_token ∧
    (finish_login wClient { code := "abc", state := "wrong" } wFinishEnvStub wSessReq).result
      = .error .InvalidState ∧
    (finish_login wClient { code := "abc", state := "wrong" } wFinishEnvStub wSessReq).calls
      = [] := by
  refine ⟨by decide, by decide, ?_, ?_⟩
  · exact (finish_login_state_mismatch_no_exchange wClient
      { code := "abc", state := "wrong" } wFinishEnvStub wSessReq wAuthState []
      (by decide) (by decide)).1
  · exact (finish_login_state_mismatch_no_exchange wClient
      { code := "abc", state := "wrong" } wFinishEnvStub wSessReq wAuthState []
      (by decide) (by decide)).2

/-- Claim C4: a second `login` overwrites the first attempt's stored state
— the `request` key then holds exactly the second bundle — so a
`finish_login` presenting the first attempt's CSRF token fails with
`InvalidState`. -/
theorem second_login_overwrites_first
    (client : Client) (e1 e2 : LoginEnv) (fenv : FinishEnv) (sess : Session) (code : String)
    (h1 : e1.insertOk = true) (h2 : e2.insertOk = true)
    (hne : e1.csrf_token ≠ e2.csrf_token) :
    Session.get (login client e2 (login client e1 sess).2).2 client.session_keys.request
      = some (.authState
          { csrf_token := e2.csrf_token
            pkce_code_verifier := e2.pkce_code_verifier
            nonce := e2.nonce }) ∧
    (finish_login client { code := code, state := e1.csrf_token } fenv
        (login client e2 (login client e1 sess).2).2).result
      = .error .InvalidState := by
  have hget : Session.get (login client e2 (login client e1 sess).2).2
      client.session_keys.request
      = some (.authState
          { csrf_token := e2.csrf_token
            pkce_code_verifier := e2.pkce_code_verifier
            nonce := e2.nonce }) := by
    simp [login, h1, h2, Session.get_insert_self]
  refine ⟨hget, ?_⟩
  have hrem := Session.remove_as_of_get_authState _ _ _ hget
  unfold finish_login
  rw [hrem]
  simp [hne]

/-- Witness for C4: two concrete `login` runs with distinct CSRF tokens,
then a callback presenting the first token. -/
theorem second_login_overwrites_first_witness :
    Session.get (login wClient wLoginEnv2 (login wClient wLoginEnv []).2).2
      wClient.session_keys.request
      = some (.authState
          { csrf_token := "csrf-2", pkce_code_verifier := "pkce-2", nonce := "nonce-2" }) ∧
    (finish_login wClient { code := "abc", state := "csrf-1" } wFinishEnvStub
        (login wClient wLoginEnv2 (login wClient wLoginEnv []).2).2).result
      = .error .InvalidState :=
  second_login_overwrites_first wClient wLoginEnv wLoginEnv2 wFinishEnvStub [] "abc"
    rfl rfl (by decide)

/-- Claim C6: `finish_login` fails with `MissingState` exactly when the
session holds nothing under the `request` key or the stored value does not
decode as an `AuthState`; both cases yield the same `MissingState` error. -/
theorem finish_login_missing_state_iff
    (client : Client) (params : AuthRequest) (env : FinishEnv) (sess : Session) :
    (finish_login client params env sess).result = .error .MissingState ↔
      (Session.get sess client.session_keys.request = none ∨
       ∃ v, Session.get sess client.session_keys.request = some v ∧
         v.isAuthState = false) := by
  cases hg : Session.get sess client.session_keys.request with
  | none =>
      have hrem : Session.remove_as sess client.session_keys.request = (none, sess) := by
        unfold Session.remove_as
        rw [hg]
      unfold finish_login
      rw [hrem]
      simp
  | some v =>
      cases v with
      | authState st =>
          have hrem := Session.remove_as_of_get_authState _ _ _ hg
          have hne := finish_login_ok_branch_ne_missing client params env sess st _ hrem
          simp only [hne, false_iff]
          simp [hg, SessVal.isAuthState]
      | userData u =>
          have hrem : Session.remove_as sess client.session_keys.request
              = (some (.error "undecodable"), Session.removeKey sess client.session_keys.request) := by
            unfold Session.remove_as
            rw [hg]
          unfold finish_login
          rw [hrem]
          simp [SessVal.isAuthState]
      | raw s =>
          have hrem : Session.remove_as sess client.session_keys.request
              = (some (.error s), Session.removeKey sess client.session_keys.request) := by
            unfold Session.remove_as
            rw [hg]
          unfold finish_login
          rw [hrem]
          simp [SessVal.isAuthState]

/-- Claim C5: in the access-token-hash step (reached once steps 1–5
succeeded): absence of the access-token-hash claim lets the flow proceed to
the session-write step without error; a present claim whose recomputed hash
differs fails `InvalidAccessTokenHash`; a hash that cannot be computed —
the signing algorithm is unsupported or the hash computation itself fails —
fails `CreateAccessTokenHash`. -/
theorem finish_login_access_token_hash_step
    (client : Client) (params : AuthRequest) (env : FinishEnv) (sess : Session)
    (st : AuthState) (s₁ : Session) (token : CoreTokenResponse) (idt : IdToken)
    (claims : IdTokenClaims)
    (hrem : Session.remove_as sess client.session_keys.request = (some (.ok st), s₁))
    (hst : params.state = st.csrf_token)
    (hex : env.exchangeResult = .ok token)
    (hid : token.id_token = some idt)
    (hcl : idt.claimsResult = .ok claims) :
    (claims.access_token_hash = none →
      finish_login client params env sess
        = storeUserData client env s₁
            [CallEvent.exchangeCode params.code st.pkce_code_verifier,
             CallEvent.verifyClaims st.nonce] token claims) ∧
    (∀ expected alg actual,
      claims.access_token_hash = some expected →
      idt.signingAlg = .ok alg →
      env.hashFn token.access_token alg = .ok actual →
      actual ≠ expected →
      (finish_login client params env sess).result = .error .InvalidAccessTokenHash) ∧
    (∀ expected e,
      claims.access_token_hash = some expected →
      idt.signingAlg = .error e →
      (finish_login client params env sess).result = .error (.CreateAccessTokenHash e)) ∧
    (∀ expected alg e,
      claims.access_token_hash = some expected →
      idt.signingAlg = .ok alg →
      env.hashFn token.access_token alg = .error e →
      (finish_login client params env sess).result = .error (.CreateAccessTokenHash e)) := by
  refine ⟨?_, ?_, ?_, ?_⟩
  · intro hnone
    unfold finish_login
    rw [hrem]
    simp [hst, hex, hid, hcl, hnone]
  · intro expected alg actual hsome halg hhash hne
    unfold finish_login
    rw [hrem]
    simp [hst, hex, hid, hcl, hsome, halg, hhash, hne]
  · intro expected e hsome halg
    unfold finish_login
    rw [hrem]
    simp [hst, hex, hid, hcl, hsome, halg]
  · intro expected alg e hsome halg hhash
    unfold finish_login
    rw [hrem]
    simp [hst, hex, hid, hcl, hsome, halg, hhash]

/-- Witness for C5: a concrete run reaching step 6 whose recomputed hash
differs from the claim fails `InvalidAccessTokenHash`. -/
theorem finish_login_access_token_hash_step_witness :
    Session.remove_as wSessReq wClient.session_keys.request = (some (.ok wAuthState), []) ∧
    (finish_login wClient { code := "abc", state := "csrf-1" } wFinishEnvMismatch
        wSessReq).result
      = .error .InvalidAccessTokenHash := by
  refine ⟨by decide, ?_⟩
  exact (finish_login_access_token_hash_step wClient { code := "abc", state := "csrf-1" }
      wFinishEnvMismatch wSessReq wAuthState [] wTokenHash wIdTokenHash
      { sub := "user-42", access_token_hash := some "expected-hash" }
      (by decide) rfl rfl rfl rfl).2.1
    "expected-hash" "RS256" "actual-hash" rfl rfl rfl (by decide)

/-- Claim C3: once step 1 has read-and-removed a stored `AuthState`, the
`request` key is absent from the session after the call, whichever way any
later step goes (the state is consumed on read); the configured keys are
assumed distinct, as in the default configuration. -/
theorem finish_login_consumes_request_state
    (client : Client) (params : AuthRequest) (env : FinishEnv) (sess : Session)
    (st : AuthState) (s₁ : Session)
    (hkeys : client.session_keys.request ≠ client.session_keys.data)
    (hrem : Session.remove_as sess client.session_keys.request = (some (.ok st), s₁)) :
    Session.get (finish_login client params env sess).session client.session_keys.request
      = none := by
  have hs₁ : s₁ = Session.removeKey sess client.session_keys.request :=
    Session.remove_as_ok_session _ _ _ _ hrem
  have hget₁ : Session.get s₁ client.session_keys.request = none := by
    rw [hs₁]
    exact Session.get_removeKey_self _ _
  rcases finish_login_session_cases client params env sess st s₁ hrem with h | ⟨u, h⟩
  · rw [h]
    exact hget₁
  · rw [h, Session.get_insert_ne _ _ _ _ hkeys]
    exact hget₁

/-- Witness for C3: after the concrete failing run of the C2 scenario shape
(state mismatch), the `request` key is gone. -/
theorem finish_login_consumes_request_state_witness :
    wClient.session_keys.request ≠ wClient.session_keys.data ∧
    Session.remove_as wSessReq wClient.session_keys.request = (some (.ok wAuthState), []) ∧
    Session.get (finish_login wClient { code := "abc", state := "wrong" } wFinishEnvStub
        wSessReq).session wClient.session_keys.request = none := by
  refine ⟨by decide, by decide, ?_⟩
  exact finish_login_consumes_request_state wClient { code := "abc", state := "wrong" }
    wFinishEnvStub wSessReq wAuthState [] (by decide) (by decide)

/-- Claim C1: whenever a `finish_login` run leaves a `UserData` under the
`data` key that was not there before, every check succeeded: step 1 decoded
a stored `AuthState`, the callback state equals its CSRF token, the token
exchange succeeded with exactly the stored token response, the response
carried an ID token whose claims verification succeeded with exactly the
stored claims, the access-token-hash step passed (or was skipped because
the claim is absent), the session write succeeded — and the two provider
calls happened in order: the code exchange (with the stored PKCE verifier)
strictly before the claims verification (with the stored nonce). Any
earlier failure ends the run with the consumed session and no write. -/
theorem finish_login_writes_data_only_after_all_checks
    (client : Client) (params : AuthRequest) (env : FinishEnv) (sess : Session)
    (u : UserData)
    (hwrite : Session.get (finish_login client params env sess).session
        client.session_keys.data = some (.userData u))
    (hfresh : Session.get sess client.session_keys.data ≠ some (.userData u)) :
    ∃ st s₁ idt,
      Session.remove_as sess client.session_keys.request = (some (.ok st), s₁) ∧
      params.state = st.csrf_token ∧
      env.exchangeResult = .ok u.token ∧
      u.token.id_token = some idt ∧
      idt.claimsResult = .ok u.claims ∧
      hashStepOk env u.token idt u.claims = true ∧
      env.dataInsertOk = true ∧
      (finish_login client params env sess).calls
        = [CallEvent.exchangeCode params.code st.pkce_code_verifier,
           CallEvent.verifyClaims st.nonce] := by
  rcases hrem : Session.remove_as sess client.session_keys.request with ⟨_ | (e | st), s₁⟩
  · -- key absent: the session is returned unchanged, so nothing fresh was written
    have hs := Session.remove_as_none_session _ _ _ hrem
    simp only [finish_login, hrem] at hwrite
    rw [hs] at hwrite
    exact absurd hwrite hfresh
  · -- undecodable: the consumed session is returned, so nothing fresh was written
    have hs := Session.remove_as_error_session _ _ _ _ hrem
    simp only [finish_login, hrem] at hwrite
    rw [hs] at hwrite
    exact absurd hwrite (Session.get_removeKey_preserves_ne _ _ _ _ hfresh)
  -- step 1 succeeded
  have hs₁ : s₁ = Session.removeKey sess client.session_keys.request :=
    Session.remove_as_ok_session _ _ _ _ hrem
  have hcontra : Session.get s₁ client.session_keys.data ≠ some (.userData u) := by
    rw [hs₁]
    exact Session.get_removeKey_preserves_ne _ _ _ _ hfresh
  by_cases hst : params.state = st.csrf_token
  case neg =>
    simp [finish_login, hrem, hst] at hwrite
    exact absurd hwrite hcontra
  rcases hex : env.exchangeResult with e | token
  · simp [finish_login, hrem, hst, hex] at hwrite
    exact absurd hwrite hcontra
  rcases hid : token.id_token with _ | idt
  · simp [finish_login, hrem, hst, hex, hid] at hwrite
    exact absurd hwrite hcontra
  rcases hcl : idt.claimsResult with e | claims
  · simp [finish_login, hrem, hst, hex, hid, hcl] at hwrite
    exact absurd hwrite hcontra
  rcases hath : claims.access_token_hash with _ | expected
  · -- no access-token-hash claim: straight to the session write
    rcases hdio : env.dataInsertOk with _ | _
    · simp [finish_login, storeUserData, hrem, hst, hex, hid, hcl, hath, hdio] at hwrite
      exact absurd hwrite hcontra
    · simp [finish_login, storeUserData, hrem, hst, hex, hid, hcl, hath, hdio] at hwrite
      rw [Session.get_insert_self] at hwrite
      have hu : ({ token := token, claims := claims } : UserData) = u := by
        injection hwrite with h1
        injection h1
      subst hu
      refine ⟨st, s₁, idt, rfl, hst, rfl, hid, hcl, ?_, rfl, ?_⟩
      · simp [hashStepOk, hath]
      · simp [finish_login, storeUserData, hrem, hst, hex, hid, hcl, hath, hdio]
  -- the claims carry an access-token-hash
  rcases halg : idt.signingAlg with e | alg
  · simp [finish_login, hrem, hst, hex, hid, hcl, hath, halg] at hwrite
    exact absurd hwrite hcontra
  rcases hhash : env.hashFn token.access_token alg with e | actual
  · simp [finish_login, hrem, hst, hex, hid, hcl, hath, halg, hhash] at hwrite
    exact absurd hwrite hcontra
  by_cases hcmp : actual = expected
  case neg =>
    simp [finish_login, hrem, hst, hex, hid, hcl, hath, halg, hhash, hcmp] at hwrite
    exact absurd hwrite hcontra
  rcases hdio : env.dataInsertOk with _ | _
  · simp [finish_login, storeUserData, hrem, hst, hex, hid, hcl, hath, halg, hhash, hcmp,
      hdio] at hwrite
    exact absurd hwrite hcontra
  · simp [finish_login, storeUserData, hrem, hst, hex, hid, hcl, hath, halg, hhash,
      hcmp, hdio] at hwrite
    rw [Session.get_insert_self] at hwrite
    have hu : ({ token := token, claims := claims } : UserData) = u := by
      injection hwrite with h1
      injection h1
    subst hu
    refine ⟨st, s₁, idt, rfl, hst, rfl, hid, hcl, ?_, rfl, ?_⟩
    · simp [hashStepOk, hath, halg, hhash, hcmp]
    · simp [finish_login, storeUserData, hrem, hst, hex, hid, hcl, hath, halg, hhash,
        hcmp, hdio]

/-- Witness for C1: the successful end-to-end run — matching state, ID
token verifying, no access-token-hash claim — writes the `UserData`, and
the theorem recovers every check plus the ordered call trace. -/
theorem finish_login_writes_data_only_after_all_checks_witness :
    Session.get (finish_login wClient { code := "abc", state := "csrf-1" } wFinishEnvOk
        wSessReq).session wClient.session_keys.data
      = some (.userData { token := wTokenOk, claims := wClaimsOk }) ∧
    Session.get wSessReq wClient.session_keys.data
      ≠ some (.userData { token := wTokenOk, claims := wClaimsOk }) ∧
    ∃ st s₁ idt,
      Session.remove_as wSessReq wClient.session_keys.request = (some (.ok st), s₁) ∧
      ("csrf-1" : String) = st.csrf_token ∧
      wFinishEnvOk.exchangeResult = .ok wTokenOk ∧
      wTokenOk.id_token = some idt ∧
      idt.claimsResult = .ok wClaimsOk ∧
      hashStepOk wFinishEnvOk wTokenOk idt wClaimsOk = true ∧
      wFinishEnvOk.dataInsertOk = true ∧
      (finish_login wClient { code := "abc", state := "csrf-1" } wFinishEnvOk
          wSessReq).calls
        = [CallEvent.exchangeCode "abc" st.pkce_code_verifier,
           CallEvent.verifyClaims st.nonce] := by
  refine ⟨?_, ?_, ?_⟩
  · decide
  · decide
  · exact finish_login_writes_data_only_after_all_checks wClient
      { code := "abc", state := "csrf-1" } wFinishEnvOk wSessReq
      { token := wTokenOk, claims := wClaimsOk } (by decide) (by decide)

/-! ## Claims about the HTTP error mapping -/

/-- Counterexample to claim C8: `MissingState` — the missing-prior-state
caller-input failure — is not surfaced as a 4xx client error: the empty
`impl ResponseError for FinishLoginError` keeps actix-web's default status
code, 500. -/
theorem missingState_response_not_client_error :
    FinishLoginError.MissingState.error_response.status = 500 ∧
    ¬(400 ≤ FinishLoginError.MissingState.error_response.status ∧
      FinishLoginError.MissingState.error_response.status < 500) := by
  decide

/-- Claim C8 (amended): every `FinishLoginError`, including the
caller-input failure `MissingState`, is surfaced with HTTP status 500 —
actix-web's default `ResponseError` mapping — not as a client error. -/
theorem finish_login_errors_map_to_500 (e : FinishLoginError) :
    e.error_response.status = 500 := rfl

/-- Counterexample to claim C9: the responses for a CSRF state mismatch and
an access-token-hash mismatch are distinguishable — their bodies carry the
two variants' distinct `Display` texts. -/
theorem state_mismatch_responses_differ :
    FinishLoginError.InvalidState.error_response ≠
      FinishLoginError.InvalidAccessTokenHash.error_response := by
  decide

/-- Claim C9 (amended): the two state-mismatch failures share the same
status code (500), but their response bodies differ and name the failing
check, so the response does reveal which check failed. -/
theorem state_mismatch_same_status_distinct_bodies :
    FinishLoginError.InvalidState.error_response.status
      = FinishLoginError.InvalidAccessTokenHash.error_response.status ∧
    FinishLoginError.InvalidState.error_response.body
      ≠ FinishLoginError.InvalidAccessTokenHash.error_response.body := by
  constructor
  · rfl
  · decide

end ActixToolbox
